import Mathlib

/-! # terraform-provider-cancom: DNS record and IPAM host resources

A shallow embedding of `cancom/services/dns/resource_record.go` and
`cancom/services/ipam/resource_host.go`.

* Go strings are Lean strings; the functions of Go's `strings` package work on
  the character list of a string. Go works on bytes, which gives the same
  result on valid UTF-8 text (in particular on ASCII DNS names).
* `*schema.ResourceData` is the record `ResourceData`: the identifier behind
  `d.Id()` / `d.SetId` and the attribute store behind `d.Get` / `d.Set`.
* The remote clients are records of functions giving the outcome of every call.
* The record operations run on a `World`: the resource data, the state of the
  package-level `resourceRecordApiLock` and the log of the lock operations and
  remote calls made so far.
-/

set_option autoImplicit false

/-! ## Go's `strings` package (the part `resourceRecordRead` uses) -/

namespace strings

/-- Whether the character list `s` starts with `p`. -/
def startsWith : List Char → List Char → Bool
  | _, [] => true
  | [], _ :: _ => false
  | c :: s, p :: ps => c == p && startsWith s ps

/-- On character lists, `strings.Index(s, substr)`: the position of the first
occurrence of `substr` in `s`; `none` stands for Go's result `-1`. -/
def indexL : List Char → List Char → Option Nat
  | [], substr => if substr = [] then some 0 else none
  | c :: s, substr =>
    if startsWith (c :: s) substr then some 0
    else match indexL s substr with
      | none => none
      | some i => some (i + 1)

/-- The loop of `strings.Count` for a non-empty `substr`:
`for { i := Index(s, substr); if i == -1 { return n }; n++; s = s[i+len(substr):] }`.
The first argument bounds the number of rounds. -/
def countLoop (substr : List Char) : Nat → List Char → Nat
  | 0, _ => 0
  | fuel + 1, s =>
    match indexL s substr with
    | none => 0
    | some i => 1 + countLoop substr fuel (s.drop (i + substr.length))

/-- On character lists, `strings.Count(s, substr)`: the number of non-overlapping
occurrences; for an empty `substr` it is the number of characters plus one. -/
def countL (s substr : List Char) : Nat :=
  if substr = [] then s.length + 1
  else countLoop substr (s.length + 1) s

/-- The loop of `strings.Replace` for a non-empty `old`, run for `n` rounds on
the part of `s` from `start` on: copy up to the next occurrence, write `new`,
continue behind the occurrence; at the end copy what is left. -/
def replaceLoop (old new : List Char) : Nat → List Char → List Char
  | 0, s => s
  | n + 1, s =>
    match indexL s old with
    | none => s
    | some j => s.take j ++ new ++ replaceLoop old new n (s.drop (j + old.length))

/-- The rounds after the first of the loop of `strings.Replace` for an empty
`old`: step over one character, write `new`. -/
def replaceEmptyLoop (new : List Char) : Nat → List Char → List Char
  | 0, s => s
  | _ + 1, [] => []
  | n + 1, c :: s => c :: (new ++ replaceEmptyLoop new n s)

/-- On character lists, `strings.Replace(s, old, new, n)`: a copy of `s` with the
first `n` non-overlapping instances of `old` replaced by `new`; all of them if
`n < 0`. -/
def replaceL (s old new : List Char) (n : Int) : List Char :=
  if old = new ∨ n = 0 then s
  else
    let m := countL s old
    if m = 0 then s
    else
      let n : Nat := if n < 0 ∨ (m : Int) < n then m else n.toNat
      if old = [] then
        match n with
        | 0 => s
        | k + 1 => new ++ replaceEmptyLoop new k s
      else replaceLoop old new n s

/-- Go's `strings.Index`; `none` stands for the result `-1`. -/
def Index (s substr : String) : Option Nat :=
  indexL s.data substr.data

/-- Go's `strings.Replace`. -/
def Replace (s old new : String) (n : Int) : String :=
  ⟨replaceL s.data old.data new.data n⟩

end strings

/-! ## Errors and diagnostics -/

/-- A non-nil Go `error` value, as far as its kind is visible to a caller. -/
inductive GoError where
  | notFound
  | canceled
  | deadlineExceeded
  | other (msg : String)
  deriving DecidableEq, Repr

/-- The method `Error()` of an error. -/
def GoError.Error : GoError → String
  | .notFound => "not found"
  | .canceled => "context canceled"
  | .deadlineExceeded => "context deadline exceeded"
  | .other msg => msg

namespace diag

/-- The severity of a diagnostic. -/
inductive Severity where
  | Error
  | Warning
  deriving DecidableEq, Repr

/-- A single diagnostic of the plugin SDK (`diag.Diagnostic`). -/
structure Diagnostic where
  Severity : Severity
  Summary : String
  Detail : String
  deriving DecidableEq, Repr

/-- The result of a lifecycle callback (`diag.Diagnostics`); the empty list is
the success result. -/
abbrev Diagnostics := List Diagnostic

/-- The SDK's `diag.FromErr` on a non-nil error: one diagnostic of severity
`Error` whose summary is the error's text. -/
def FromErr (err : GoError) : Diagnostics :=
  [{ Severity := .Error, Summary := err.Error, Detail := "" }]

/-- The SDK's `Diagnostics.HasError`. -/
def HasError (diags : Diagnostics) : Bool :=
  diags.any (fun x => x.Severity == .Error)

/-- Whether some diagnostic mentions the text `t` in its summary or detail. -/
def Mentions (diags : Diagnostics) (t : String) : Bool :=
  diags.any (fun x => (strings.Index x.Summary t).isSome || (strings.Index x.Detail t).isSome)

end diag

/-! ## `schema.ResourceData` -/

/-- A value of an attribute: the resources use `TypeString` and `TypeInt`. -/
inductive Value where
  | str (s : String)
  | int (n : Int)
  deriving DecidableEq, Repr

/-- The resource data handed to a lifecycle callback: the identifier read by
`d.Id()` and written by `d.SetId`, and the attributes read by `d.Get` and
written by `d.Set`. -/
structure ResourceData where
  id : String
  fields : List (String × Value)
  deriving DecidableEq, Repr

namespace ResourceData

/-- The value stored under `key`, if any. -/
def lookup : List (String × Value) → String → Option Value
  | [], _ => none
  | (k, v) :: rest, key => if k = key then some v else lookup rest key

/-- Store `v` under `key`, replacing an earlier value. -/
def store : List (String × Value) → String → Value → List (String × Value)
  | [], key, v => [(key, v)]
  | (k, w) :: rest, key, v => if k = key then (k, v) :: rest else (k, w) :: store rest key v

/-- The method `d.Id()`. -/
def Id (d : ResourceData) : String := d.id

/-- The method `d.SetId(v)`. -/
def SetId (d : ResourceData) (v : String) : ResourceData := { d with id := v }

/-- The method `d.Get(key)`, `none` for an attribute that was never set. -/
def Get (d : ResourceData) (key : String) : Option Value := lookup d.fields key

/-- The expression `d.Get(key).(string)`: an attribute of `TypeString` that is not
set reads as the empty string. -/
def GetString (d : ResourceData) (key : String) : String :=
  match d.Get key with
  | some (.str s) => s
  | _ => ""

/-- The expression `d.Get(key).(int)`: an attribute of `TypeInt` that is not set
reads as zero. -/
def GetInt (d : ResourceData) (key : String) : Int :=
  match d.Get key with
  | some (.int n) => n
  | _ => 0

/-- The method `d.Set(key, value)`; the callers drop its error result. -/
def Set (d : ResourceData) (key : String) (v : Value) : ResourceData :=
  { d with fields := store d.fields key v }

end ResourceData

/-! ## The serialization lock -/

/-- The state of a lock. -/
inductive LockState where
  | free
  | held
  deriving DecidableEq, Repr

namespace util

/-- Modelled from the spec: the method `Lock(ctx)` of the lock made by
`util.NewLock()`, whose code is not part of the sources at hand. Acquire waits
until the lock is free and then marks it held, unless the context is cancelled
or times out first; then it fails with that condition and leaves the lock state
untouched. `ctxDone` is the condition with which the context ends the wait, if
it does. -/
def Lock (ctxDone : Option GoError) (l : LockState) : Option GoError × LockState :=
  match ctxDone with
  | some err => (some err, l)
  | none => (none, .held)

/-- Modelled from the spec: the method `Unlock()` of the lock made by
`util.NewLock()`: Release takes the lock from held to free. -/
def Unlock (_l : LockState) : LockState := .free

end util

/-! ## The DNS record resource (`cancom/services/dns/resource_record.go`) -/

namespace dns

/-- The request type `client_dns.RecordCreateRequest`, with the fields that
`resourceRecordCreate` fills in. -/
structure RecordCreateRequest where
  Name : String
  Type_ : String
  Content : String
  TTL : Int
  ZoneName : String
  Tenant : String
  deriving DecidableEq, Repr

/-- The request type `client_dns.RecordUpdateRequest`, with the fields that
`resourceRecordUpdate` fills in. -/
structure RecordUpdateRequest where
  Name : String
  Type_ : String
  Content : String
  TTL : Int
  ZoneName : String
  ZoneID : String
  Tenant : String
  deriving DecidableEq, Repr

/-- The record as the server returns it, with the fields that the resource
code reads from a response. -/
structure Record where
  ID : String
  Name : String
  Type_ : String
  Content : String
  TTL : Int
  ZoneName : String
  ZoneID : String
  Comments : String
  LastChangeDate : String
  Tenant : String
  deriving DecidableEq, Repr

/-- What the callback gets from outside: the argument `m` (the client and the
outcome of each of its calls) and the context `ctx`. Every remote call is made
at most once per callback, so a function from the arguments to the outcome
covers every behaviour of the server. -/
structure Client where
  /-- The error result of `m.(*client.CcpClient).GetService(name)`, `none` for nil. -/
  GetService : String → Option GoError
  /-- The condition with which `ctx` ends a wait for the lock, if it does. -/
  ctxDone : Option GoError
  /-- The outcome of `CreateRecord(record)`. -/
  CreateRecord : RecordCreateRequest → Except GoError Record
  /-- The outcome of `GetRecord(id, zoneName)`. -/
  GetRecord : String → String → Except GoError Record
  /-- The outcome of `UpdateRecord(id, record)`. -/
  UpdateRecord : String → RecordUpdateRequest → Except GoError Record
  /-- The error result of `DeleteRecord(id)`, `none` for nil. -/
  DeleteRecord : String → Option GoError

/-- The lock operations and remote calls of the record callbacks, in the order
in which they happen. -/
inductive Event where
  | Lock
  | Unlock
  | CreateRecord (record : RecordCreateRequest)
  | GetRecord (id zoneName : String)
  | UpdateRecord (id : String) (record : RecordUpdateRequest)
  | DeleteRecord (id : String)
  deriving DecidableEq, Repr

/-- Whether the event is a mutating call to the zone API. -/
def Event.isMutation : Event → Bool
  | .CreateRecord _ => true
  | .UpdateRecord _ _ => true
  | .DeleteRecord _ => true
  | _ => false

/-- The state a record callback works on. -/
structure World where
  /-- The resource data `d`. -/
  d : ResourceData
  /-- The package-level variable `resourceRecordApiLock`. -/
  resourceRecordApiLock : LockState
  /-- The events so far, oldest first. -/
  trace : List Event
  deriving DecidableEq, Repr

/-- Append an event to the log. -/
def World.emit (w : World) (e : Event) : World :=
  { w with trace := w.trace ++ [e] }

/-- The call `resourceRecordApiLock.Lock(ctx)`. -/
def lockApi (m : Client) (w : World) : Option GoError × World :=
  match util.Lock m.ctxDone w.resourceRecordApiLock with
  | (some err, l) => (some err, { w with resourceRecordApiLock := l })
  | (none, l) => (none, { w with resourceRecordApiLock := l }.emit .Lock)

/-- The call `resourceRecordApiLock.Unlock()`. -/
def unlockApi (w : World) : World :=
  { w with resourceRecordApiLock := util.Unlock w.resourceRecordApiLock }.emit .Unlock

/-- The function `resourceRecordRead`. -/
def resourceRecordRead (m : Client) (w : World) : diag.Diagnostics × World :=
  match m.GetService "domdns" with
  | some err => (diag.FromErr err, w)
  | none =>
    let diags : diag.Diagnostics := []
    let id := w.d.Id
    let zoneName := w.d.GetString "zone_name"
    let w := w.emit (.GetRecord id zoneName)
    match m.GetRecord id zoneName with
    | .error err => (diag.FromErr err, w)
    | .ok resp =>
      let d := w.d
      let d := d.Set "name" (.str (strings.Replace resp.Name ("." ++ resp.ZoneName) "" 1))
      let d := d.Set "type" (.str resp.Type_)
      let d := d.Set "content" (.str resp.Content)
      let d := d.Set "ttl" (.int resp.TTL)
      let d := d.Set "zone_name" (.str resp.ZoneName)
      let d := d.Set "zone_id" (.str resp.ZoneID)
      let d := d.Set "id" (.str resp.ID)
      let d := d.Set "comments" (.str resp.Comments)
      let d := d.Set "last_change_date" (.str resp.LastChangeDate)
      let d := d.Set "tenant" (.str resp.Tenant)
      (diags, { w with d := d })

/-- The request that `resourceRecordCreate` builds from the resource data. -/
def createRequest (d : ResourceData) : RecordCreateRequest :=
  { Name := d.GetString "name"
    Type_ := d.GetString "type"
    Content := d.GetString "content"
    TTL := d.GetInt "ttl"
    ZoneName := d.GetString "zone_name"
    Tenant := d.GetString "tenant" }

/-- The part of `resourceRecordCreate` behind `defer resourceRecordApiLock.Unlock()`. -/
def resourceRecordCreateLocked (m : Client) (record : RecordCreateRequest) (w : World) :
    diag.Diagnostics × World :=
  let diags : diag.Diagnostics := []
  let w := w.emit (.CreateRecord record)
  match m.CreateRecord record with
  | .error err => (diag.FromErr err, w)
  | .ok resp =>
    let id := resp.ID
    let d := w.d
    let d := d.Set "last_change_date" (.str resp.LastChangeDate)
    let d := d.Set "zone_id" (.str resp.ZoneID)
    let d := d.Set "comments" (.str resp.Comments)
    let d := d.SetId id
    -- the result of the call is dropped
    let w := (resourceRecordRead m { w with d := d }).2
    (diags, w)

/-- The function `resourceRecordCreate`. The deferred `Unlock` runs when the
function returns, on every path behind the `defer` statement. -/
def resourceRecordCreate (m : Client) (w : World) : diag.Diagnostics × World :=
  match m.GetService "domdns" with
  | some err => (diag.FromErr err, w)
  | none =>
    let record := createRequest w.d
    match lockApi m w with
    | (some err, w) => (diag.FromErr err, w)
    | (none, w) =>
      let r := resourceRecordCreateLocked m record w
      (r.1, unlockApi r.2)

/-- The request that `resourceRecordUpdate` builds from the resource data. -/
def updateRequest (d : ResourceData) : RecordUpdateRequest :=
  { Name := d.GetString "name"
    Type_ := d.GetString "type"
    Content := d.GetString "content"
    TTL := d.GetInt "ttl"
    ZoneName := d.GetString "zone_name"
    ZoneID := d.GetString "zone_id"
    Tenant := d.GetString "tenant" }

/-- The part of `resourceRecordUpdate` behind `defer resourceRecordApiLock.Unlock()`. -/
def resourceRecordUpdateLocked (m : Client) (id : String) (record : RecordUpdateRequest)
    (w : World) : diag.Diagnostics × World :=
  let diags : diag.Diagnostics := []
  let w := w.emit (.UpdateRecord id record)
  match m.UpdateRecord id record with
  | .error err => (diag.FromErr err, w)
  | .ok _ =>
    let d := w.d.SetId id
    -- the result of the call is dropped
    let w := (resourceRecordRead m { w with d := d }).2
    (diags, w)

/-- The function `resourceRecordUpdate`. -/
def resourceRecordUpdate (m : Client) (w : World) : diag.Diagnostics × World :=
  match m.GetService "domdns" with
  | some err => (diag.FromErr err, w)
  | none =>
    let id := w.d.Id
    let record := updateRequest w.d
    match lockApi m w with
    | (some err, w) => (diag.FromErr err, w)
    | (none, w) =>
      let r := resourceRecordUpdateLocked m id record w
      (r.1, unlockApi r.2)

/-- The part of `resourceRecordDelete` behind `defer resourceRecordApiLock.Unlock()`. -/
def resourceRecordDeleteLocked (m : Client) (id : String) (w : World) :
    diag.Diagnostics × World :=
  let diags : diag.Diagnostics := []
  let w := w.emit (.DeleteRecord id)
  match m.DeleteRecord id with
  | some err => (diag.FromErr err, w)
  | none =>
    let d := w.d.SetId ""
    (diags, { w with d := d })

/-- The function `resourceRecordDelete`. -/
def resourceRecordDelete (m : Client) (w : World) : diag.Diagnostics × World :=
  match m.GetService "domdns" with
  | some err => (diag.FromErr err, w)
  | none =>
    let id := w.d.Id
    match lockApi m w with
    | (some err, w) => (diag.FromErr err, w)
    | (none, w) =>
      let r := resourceRecordDeleteLocked m id w
      (r.1, unlockApi r.2)

end dns

/-! ## The IPAM host resource (`cancom/services/ipam/resource_host.go`) -/

namespace ipam

/-- The request type `client_ipam.HostCreateRequest`, with the fields that
`resourceHostCreate` fills in. -/
structure HostCreateRequest where
  NetworkCrn : String
  NameTag : String
  Operation : String
  Description : String
  Qualifier : String
  deriving DecidableEq, Repr

/-- The request type `client_ipam.HostUpdateRequest`, with the fields that
`resourceHostUpdate` fills in. -/
structure HostUpdateRequest where
  NetworkCrn : String
  NameTag : String
  Description : String
  deriving DecidableEq, Repr

/-- The host as the server returns it, with the fields that the resource code
reads from a response. -/
structure Host where
  ID : String
  NameTag : String
  Address : String
  Description : String
  deriving DecidableEq, Repr

/-- What the callback gets from outside: the argument `m`, as the outcome of
each call of the client. -/
structure Client where
  /-- The error result of `m.(*client.CcpClient).GetService(name)`, `none` for nil. -/
  GetService : String → Option GoError
  /-- The outcome of `CreateHost(host)`. -/
  CreateHost : HostCreateRequest → Except GoError Host
  /-- The outcome of `GetHost(id)`. -/
  GetHost : String → Except GoError Host
  /-- The outcome of `UpdateHost(id, host)`. -/
  UpdateHost : String → HostUpdateRequest → Except GoError Host
  /-- The error result of `DeleteHost(id)`, `none` for nil. -/
  DeleteHost : String → Option GoError

/-- The attributes in the schema of `resourceHost`, each with its flag `Computed`. -/
def schema : List (String × Bool) :=
  [("id", true), ("network_crn", false), ("qualifier", false), ("name_tag", false),
   ("description", false), ("last_updated", true), ("address", true)]

/-- The attributes that the schema of `resourceHost` marks as computed. -/
def computedFields : List String :=
  (schema.filter (fun a => a.2)).map (fun a => a.1)

/-- The function `resourceHostRead`. -/
def resourceHostRead (m : Client) (d : ResourceData) : diag.Diagnostics × ResourceData :=
  match m.GetService "ip-management" with
  | some err => (diag.FromErr err, d)
  | none =>
    let diags : diag.Diagnostics := []
    let id := d.Id
    match m.GetHost id with
    | .error err => (diag.FromErr err, d)
    | .ok resp =>
      let d := d.Set "name_tag" (.str resp.NameTag)
      let d := d.Set "address" (.str resp.Address)
      let d := d.Set "description" (.str resp.Description)
      let d := d.Set "id" (.str resp.ID)
      (diags, d)

/-- The request that `resourceHostCreate` builds from the resource data. -/
def createRequest (d : ResourceData) : HostCreateRequest :=
  { NetworkCrn := d.GetString "network_crn"
    NameTag := d.GetString "name_tag"
    Operation := "assign_address"
    Description := d.GetString "description"
    Qualifier := d.GetString "qualifier" }

/-- The function `resourceHostCreate`. -/
def resourceHostCreate (m : Client) (d : ResourceData) : diag.Diagnostics × ResourceData :=
  match m.GetService "ip-management" with
  | some err => (diag.FromErr err, d)
  | none =>
    let diags : diag.Diagnostics := []
    let host := createRequest d
    match m.CreateHost host with
    | .error err => (diag.FromErr err, d)
    | .ok resp =>
      let id := resp.ID
      let d := d.Set "address" (.str resp.Address)
      let d := d.SetId id
      -- the result of the call is dropped
      let d := (resourceHostRead m d).2
      (diags, d)

/-- The request that `resourceHostUpdate` builds from the resource data. -/
def updateRequest (d : ResourceData) : HostUpdateRequest :=
  { NetworkCrn := d.GetString "network_crn"
    NameTag := d.GetString "name_tag"
    Description := d.GetString "description" }

/-- The function `resourceHostUpdate`. -/
def resourceHostUpdate (m : Client) (d : ResourceData) : diag.Diagnostics × ResourceData :=
  match m.GetService "ip-management" with
  | some err => (diag.FromErr err, d)
  | none =>
    let diags : diag.Diagnostics := []
    let id := d.Id
    let host := updateRequest d
    match m.UpdateHost id host with
    | .error err => (diag.FromErr err, d)
    | .ok _ =>
      let d := d.SetId id
      -- the result of the call is dropped
      let d := (resourceHostRead m d).2
      (diags, d)

/-- The function `resourceHostDelete`. -/
def resourceHostDelete (m : Client) (d : ResourceData) : diag.Diagnostics × ResourceData :=
  match m.GetService "ip-management" with
  | some err => (diag.FromErr err, d)
  | none =>
    let diags : diag.Diagnostics := []
    let id := d.Id
    match m.DeleteHost id with
    | some err => (diag.FromErr err, d)
    | none =>
      let d := d.SetId ""
      (diags, d)

end ipam

/-! ## Reading the event log -/

namespace dns

/-- Whether every mutating call in the events happens while the lock is held,
`l` being the state of the lock before the first event. -/
def mutationsOnlyWhileHeld : LockState → List Event → Bool
  | _, [] => true
  | _, .Lock :: es => mutationsOnlyWhileHeld .held es
  | _, .Unlock :: es => mutationsOnlyWhileHeld .free es
  | l, e :: es => (!e.isMutation || l == .held) && mutationsOnlyWhileHeld l es

/-- Whether some `GetRecord` call in the events happens while the lock is held,
`l` being the state of the lock before the first event. -/
def readWhileHeld : LockState → List Event → Bool
  | _, [] => false
  | _, .Lock :: es => readWhileHeld .held es
  | _, .Unlock :: es => readWhileHeld .free es
  | l, .GetRecord _ _ :: es => l == .held || readWhileHeld l es
  | l, _ :: es => readWhileHeld l es

/-- The events that a callback added to the log of `w`, given its final state. -/
def newEvents (w after : World) : List Event :=
  after.trace.drop w.trace.length

/-- What it means that a callback, run from `w` to `after`, brackets the
mutating call `mutation` with the lock: the lock is free at the end; the
callback logged `Lock`, then the mutating call, then at most one `GetRecord`
call, then `Unlock`, and nothing else; in these events every mutating call
happens while the lock is held, and `Lock` and `Unlock` happen once each. -/
def Bracketed (w after : World) (mutation : Event) : Prop :=
  after.resourceRecordApiLock = .free
  ∧ (∃ mid : List Event, (mid = [] ∨ ∃ id zoneName, mid = [.GetRecord id zoneName])
      ∧ after.trace = w.trace ++ .Lock :: mutation :: (mid ++ [.Unlock]))
  ∧ mutationsOnlyWhileHeld w.resourceRecordApiLock (newEvents w after) = true
  ∧ (newEvents w after).count .Lock = 1
  ∧ (newEvents w after).count .Unlock = 1

/-! ## Concrete inputs -/

/-- The declared record of the scenario: `api` of type `A` in zone `example.com`. -/
def declaredApi : ResourceData :=
  { id := ""
    fields := [("name", .str "api"), ("type", .str "A"), ("content", .str "10.0.0.1"),
               ("ttl", .int 300), ("zone_name", .str "example.com")] }

/-- The world before the record is created: lock free, nothing logged. -/
def worldApi : World :=
  { d := declaredApi, resourceRecordApiLock := .free, trace := [] }

/-- The record of the scenario as the server holds it. -/
def recordApi : Record :=
  { ID := "rec-1", Name := "api.example.com", Type_ := "A", Content := "10.0.0.1", TTL := 300,
    ZoneName := "example.com", ZoneID := "zone-1", Comments := "", LastChangeDate := "2024-01-01",
    Tenant := "" }

/-- A server on which every call succeeds. -/
def serverOk : Client :=
  { GetService := fun _ => none
    ctxDone := none
    CreateRecord := fun _ => .ok recordApi
    GetRecord := fun _ _ => .ok recordApi
    UpdateRecord := fun _ _ => .ok recordApi
    DeleteRecord := fun _ => none }

/-- A server on which the calls succeed, except that `GetRecord` fails with a
network fault. -/
def serverReadFails : Client :=
  { serverOk with GetRecord := fun _ _ => .error (.other "network fault") }

/-- A server on which the mutating calls fail. -/
def serverMutationFails : Client :=
  { serverOk with
    CreateRecord := fun _ => .error (.other "429 Too Many Requests")
    UpdateRecord := fun _ _ => .error (.other "429 Too Many Requests")
    DeleteRecord := fun _ => some (.other "429 Too Many Requests") }

/-- A server whose record is already gone: `DeleteRecord` reports not found. -/
def serverGone : Client :=
  { serverOk with DeleteRecord := fun _ => some .notFound }

/-- A server that is fine, met with a context that is cancelled while the
callback waits for the lock. -/
def serverCancelled : Client :=
  { serverOk with ctxDone := some .canceled }

/-- The record `www.example.com.cdn` of zone `example.com` as the server holds it. -/
def recordNested : Record :=
  { recordApi with ID := "rec-2", Name := "www.example.com.cdn.example.com" }

/-- A server that holds `recordNested`. -/
def serverNested : Client :=
  { serverOk with GetRecord := fun _ _ => .ok recordNested }

/-- The world of a record that exists with identifier `rec-1`. -/
def worldPresent : World :=
  { d := { declaredApi with id := "rec-1" }, resourceRecordApiLock := .free, trace := [] }

/-- The world of the declared record `www.example.com.cdn` with identifier `rec-2`. -/
def worldNested : World :=
  { d := { id := "rec-2"
           fields := [("name", .str "www.example.com.cdn"), ("zone_name", .str "example.com")] }
    resourceRecordApiLock := .free
    trace := [] }

end dns

namespace ipam

/-- A declared host. -/
def declaredHost : ResourceData :=
  { id := ""
    fields := [("network_crn", .str "crn:net-1"), ("name_tag", .str "web-1")] }

/-- The host as the server holds it. -/
def hostWeb : Host :=
  { ID := "host-1", NameTag := "web-1", Address := "10.0.0.5", Description := "" }

/-- A server on which every call succeeds. -/
def serverOk : Client :=
  { GetService := fun _ => none
    CreateHost := fun _ => .ok hostWeb
    GetHost := fun _ => .ok hostWeb
    UpdateHost := fun _ _ => .ok hostWeb
    DeleteHost := fun _ => none }

/-- A server on which the calls succeed, except that `GetHost` fails with a
network fault. -/
def serverReadFails : Client :=
  { serverOk with GetHost := fun _ => .error (.other "network fault") }

/-- A server whose host is already gone: `DeleteHost` reports not found. -/
def serverGone : Client :=
  { serverOk with DeleteHost := fun _ => some .notFound }

end ipam

/-! ## Properties of the string functions -/

namespace strings

theorem startsWith_length (s p : List Char) (h : startsWith s p = true) :
    p.length ≤ s.length := by
  induction p generalizing s with
  | nil => simp
  | cons a ps ih =>
    cases s with
    | nil => simp [startsWith] at h
    | cons c s =>
      simp only [startsWith, Bool.and_eq_true] at h
      have := ih s h.2
      simp only [List.length_cons]
      omega

theorem indexL_bound (s old : List Char) (j : Nat) (h : indexL s old = some j) :
    j + old.length ≤ s.length := by
  induction s generalizing j with
  | nil =>
    simp only [indexL] at h
    split at h
    · next h0 => simp at h; subst h0; simp [← h]
    · simp at h
  | cons c s ih =>
    simp only [indexL] at h
    split at h
    · next hp =>
      simp at h
      have := startsWith_length _ _ hp
      omega
    · cases hi : indexL s old with
      | none => simp [hi] at h
      | some i =>
        simp [hi] at h
        have := ih i hi
        simp only [List.length_cons]
        omega

theorem countL_eq_zero_iff (s old : List Char) (hold : old ≠ []) :
    countL s old = 0 ↔ indexL s old = none := by
  simp only [countL, hold, if_false, countLoop]
  cases indexL s old with
  | none => simp
  | some i => simp

theorem replaceL_one (s old : List Char) (hold : old ≠ []) :
    replaceL s old [] 1
      = match indexL s old with
        | none => s
        | some j => s.take j ++ s.drop (j + old.length) := by
  unfold replaceL
  have hz := countL_eq_zero_iff s old hold
  cases hi : indexL s old with
  | none =>
    have : countL s old = 0 := hz.2 hi
    simp [this, hold]
  | some j =>
    have hne : countL s old ≠ 0 := fun h0 => by simpa [hi] using hz.1 h0
    have hge : ¬ ((countL s old : Int) < 1) := by omega
    simp [hne, hold, hge, replaceLoop, hi]

end strings

namespace strings

theorem replaceL_one_of_absent (s old : List Char) (hold : old ≠ [])
    (h : indexL s old = none) : replaceL s old [] 1 = s := by
  rw [replaceL_one s old hold, h]

theorem replaceL_one_length (s old : List Char) (hold : old ≠ []) (j : Nat)
    (h : indexL s old = some j) :
    (replaceL s old [] 1).length + old.length = s.length := by
  have hb := indexL_bound s old j h
  rw [replaceL_one s old hold, h]
  simp only [List.length_append, List.length_take, List.length_drop]
  omega

theorem replaceL_one_fixed_iff (s old : List Char) (hold : old ≠ []) :
    replaceL s old [] 1 = s ↔ indexL s old = none := by
  constructor
  · intro h
    cases hi : indexL s old with
    | none => rfl
    | some j =>
      have hl := replaceL_one_length s old hold j hi
      rw [h] at hl
      have : 0 < old.length := List.length_pos.mpr hold
      omega
  · exact replaceL_one_of_absent s old hold

theorem dot_zone_data (z : String) : ("." ++ z).data = '.' :: z.data := rfl

theorem Replace_fixed_iff (n z : String) :
    Replace n ("." ++ z) "" 1 = n ↔ Index n ("." ++ z) = none := by
  have hold : ("." ++ z).data ≠ [] := by simp [dot_zone_data]
  have h := replaceL_one_fixed_iff n.data ("." ++ z).data hold
  unfold Replace Index
  rw [String.ext_iff]
  exact h

/-- When the first occurrence of the zone suffix in the server's name is the one
at its end, replacing one occurrence gives back the relative name. -/
theorem Replace_strips_suffix (r z : String)
    (h : Index (r ++ "." ++ z) ("." ++ z) = some r.length) :
    Replace (r ++ "." ++ z) ("." ++ z) "" 1 = r := by
  have hold : ("." ++ z).data ≠ [] := by simp [dot_zone_data]
  unfold Index at h
  unfold Replace
  rw [String.ext_iff]
  show replaceL (r ++ "." ++ z).data ("." ++ z).data [] 1 = r.data
  rw [replaceL_one _ _ hold, h]
  have hd : (r ++ "." ++ z).data = r.data ++ ("." ++ z).data := by
    simp [String.data_append]
  have hlen : r.length = r.data.length := rfl
  simp only [hd, hlen]
  simp

end strings

/-! ## Properties of the resource data -/

namespace ResourceData

theorem lookup_store_same (fs : List (String × Value)) (key : String) (v : Value) :
    lookup (store fs key v) key = some v := by
  induction fs with
  | nil => simp [store, lookup]
  | cons p rest ih =>
    obtain ⟨k, w⟩ := p
    by_cases hk : k = key
    · simp [store, lookup, hk]
    · simp [store, lookup, hk, ih]

theorem lookup_store_other (fs : List (String × Value)) (key other : String) (v : Value)
    (h : key ≠ other) : lookup (store fs key v) other = lookup fs other := by
  induction fs with
  | nil => simp [store, lookup, h]
  | cons p rest ih =>
    obtain ⟨k, w⟩ := p
    by_cases hk : k = key
    · subst hk
      simp [store, lookup, h]
    · by_cases ho : k = other
      · subst ho
        simp [store, lookup, hk]
      · simp [store, lookup, hk, ho, ih]

theorem Get_Set_same (d : ResourceData) (key : String) (v : Value) :
    (d.Set key v).Get key = some v := by
  simp [Get, Set, lookup_store_same]

theorem Get_Set_other (d : ResourceData) (key other : String) (v : Value) (h : key ≠ other) :
    (d.Set key v).Get other = d.Get other := by
  simp [Get, Set, lookup_store_other _ _ _ _ h]

theorem GetString_Set_other (d : ResourceData) (key other : String) (v : Value)
    (h : key ≠ other) : (d.Set key v).GetString other = d.GetString other := by
  simp [GetString, Get_Set_other _ _ _ _ h]

theorem Get_SetId (d : ResourceData) (v key : String) : (d.SetId v).Get key = d.Get key := rfl

theorem GetString_SetId (d : ResourceData) (v key : String) :
    (d.SetId v).GetString key = d.GetString key := rfl

theorem Id_Set (d : ResourceData) (key : String) (v : Value) : (d.Set key v).Id = d.Id := rfl

theorem Id_SetId (d : ResourceData) (v : String) : (d.SetId v).Id = v := rfl

end ResourceData

/-! ## Properties of the record callbacks -/

namespace dns

theorem lockApi_fail (m : Client) (w : World) (e : GoError) (h : m.ctxDone = some e) :
    lockApi m w = (some e, w) := by
  simp [lockApi, util.Lock, h]

theorem lockApi_ok (m : Client) (w : World) (h : m.ctxDone = none) :
    lockApi m w = (none, { w with resourceRecordApiLock := .held, trace := w.trace ++ [.Lock] }) := by
  simp [lockApi, util.Lock, h, World.emit]

theorem read_fail (m : Client) (w : World) (e : GoError) (hs : m.GetService "domdns" = none)
    (hg : m.GetRecord w.d.Id (w.d.GetString "zone_name") = .error e) :
    resourceRecordRead m w
      = (diag.FromErr e, w.emit (.GetRecord w.d.Id (w.d.GetString "zone_name"))) := by
  simp [resourceRecordRead, hs, hg, World.emit]

theorem read_Id (m : Client) (w : World) : (resourceRecordRead m w).2.d.Id = w.d.Id := by
  unfold resourceRecordRead
  split
  · rfl
  · dsimp only
    split <;> rfl

theorem read_lock (m : Client) (w : World) :
    (resourceRecordRead m w).2.resourceRecordApiLock = w.resourceRecordApiLock := by
  unfold resourceRecordRead
  split
  · rfl
  · dsimp only
    split <;> rfl

theorem read_trace (m : Client) (w : World) (hs : m.GetService "domdns" = none) :
    (resourceRecordRead m w).2.trace
      = w.trace ++ [.GetRecord w.d.Id (w.d.GetString "zone_name")] := by
  unfold resourceRecordRead
  rw [hs]
  dsimp only
  split <;> rfl

end dns

namespace dns

theorem create_lock_fail (m : Client) (w : World) (e : GoError)
    (hs : m.GetService "domdns" = none) (hl : m.ctxDone = some e) :
    resourceRecordCreate m w = (diag.FromErr e, w) := by
  simp [resourceRecordCreate, hs, lockApi_fail m w e hl]

theorem create_mutation_fail (m : Client) (w : World) (e : GoError)
    (hs : m.GetService "domdns" = none) (hl : m.ctxDone = none)
    (hc : m.CreateRecord (createRequest w.d) = .error e) :
    resourceRecordCreate m w
      = (diag.FromErr e,
         { d := w.d, resourceRecordApiLock := .free,
           trace := w.trace ++ [.Lock, .CreateRecord (createRequest w.d), .Unlock] }) := by
  simp [resourceRecordCreate, hs, lockApi_ok m w hl, resourceRecordCreateLocked, hc, unlockApi,
    World.emit, util.Unlock]

theorem create_ok (m : Client) (w : World) (resp : Record)
    (hs : m.GetService "domdns" = none) (hl : m.ctxDone = none)
    (hc : m.CreateRecord (createRequest w.d) = .ok resp) :
    resourceRecordCreate m w
      = ([], unlockApi (resourceRecordRead m
          { d := (((w.d.Set "last_change_date" (.str resp.LastChangeDate)).Set "zone_id"
                    (.str resp.ZoneID)).Set "comments" (.str resp.Comments)).SetId resp.ID
            resourceRecordApiLock := .held
            trace := w.trace ++ [.Lock, .CreateRecord (createRequest w.d)] }).2) := by
  simp [resourceRecordCreate, hs, lockApi_ok m w hl, resourceRecordCreateLocked, hc, World.emit]

theorem zone_name_after_create (d : ResourceData) (resp : Record) :
    ((((d.Set "last_change_date" (.str resp.LastChangeDate)).Set "zone_id"
        (.str resp.ZoneID)).Set "comments" (.str resp.Comments)).SetId resp.ID).GetString "zone_name"
      = d.GetString "zone_name" := by
  rw [ResourceData.GetString_SetId,
    ResourceData.GetString_Set_other _ _ _ _ (by decide),
    ResourceData.GetString_Set_other _ _ _ _ (by decide),
    ResourceData.GetString_Set_other _ _ _ _ (by decide)]

theorem update_lock_fail (m : Client) (w : World) (e : GoError)
    (hs : m.GetService "domdns" = none) (hl : m.ctxDone = some e) :
    resourceRecordUpdate m w = (diag.FromErr e, w) := by
  simp [resourceRecordUpdate, hs, lockApi_fail m w e hl]

theorem update_mutation_fail (m : Client) (w : World) (e : GoError)
    (hs : m.GetService "domdns" = none) (hl : m.ctxDone = none)
    (hc : m.UpdateRecord w.d.Id (updateRequest w.d) = .error e) :
    resourceRecordUpdate m w
      = (diag.FromErr e,
         { d := w.d, resourceRecordApiLock := .free,
           trace := w.trace ++ [.Lock, .UpdateRecord w.d.Id (updateRequest w.d), .Unlock] }) := by
  simp [resourceRecordUpdate, hs, lockApi_ok m w hl, resourceRecordUpdateLocked, hc, unlockApi,
    World.emit, util.Unlock]

theorem update_ok (m : Client) (w : World) (resp : Record)
    (hs : m.GetService "domdns" = none) (hl : m.ctxDone = none)
    (hc : m.UpdateRecord w.d.Id (updateRequest w.d) = .ok resp) :
    resourceRecordUpdate m w
      = ([], unlockApi (resourceRecordRead m
          { d := w.d.SetId w.d.Id
            resourceRecordApiLock := .held
            trace := w.trace ++ [.Lock, .UpdateRecord w.d.Id (updateRequest w.d)] }).2) := by
  simp [resourceRecordUpdate, hs, lockApi_ok m w hl, resourceRecordUpdateLocked, hc, World.emit]

theorem delete_lock_fail (m : Client) (w : World) (e : GoError)
    (hs : m.GetService "domdns" = none) (hl : m.ctxDone = some e) :
    resourceRecordDelete m w = (diag.FromErr e, w) := by
  simp [resourceRecordDelete, hs, lockApi_fail m w e hl]

theorem delete_mutation_fail (m : Client) (w : World) (e : GoError)
    (hs : m.GetService "domdns" = none) (hl : m.ctxDone = none)
    (hc : m.DeleteRecord w.d.Id = some e) :
    resourceRecordDelete m w
      = (diag.FromErr e,
         { d := w.d, resourceRecordApiLock := .free,
           trace := w.trace ++ [.Lock, .DeleteRecord w.d.Id, .Unlock] }) := by
  simp [resourceRecordDelete, hs, lockApi_ok m w hl, resourceRecordDeleteLocked, hc, unlockApi,
    World.emit, util.Unlock]

theorem delete_ok (m : Client) (w : World)
    (hs : m.GetService "domdns" = none) (hl : m.ctxDone = none)
    (hc : m.DeleteRecord w.d.Id = none) :
    resourceRecordDelete m w
      = ([],
         { d := w.d.SetId "", resourceRecordApiLock := .free,
           trace := w.trace ++ [.Lock, .DeleteRecord w.d.Id, .Unlock] }) := by
  simp [resourceRecordDelete, hs, lockApi_ok m w hl, resourceRecordDeleteLocked, hc, unlockApi,
    World.emit, util.Unlock]

theorem unlockApi_trace (w : World) : (unlockApi w).trace = w.trace ++ [.Unlock] := rfl

theorem unlockApi_lock (w : World) : (unlockApi w).resourceRecordApiLock = .free := rfl

theorem unlockApi_d (w : World) : (unlockApi w).d = w.d := rfl

end dns

/-! ## Properties of the host callbacks -/

namespace ipam

theorem host_read_fail (m : Client) (d : ResourceData) (e : GoError)
    (hs : m.GetService "ip-management" = none) (hg : m.GetHost d.Id = .error e) :
    resourceHostRead m d = (diag.FromErr e, d) := by
  simp [resourceHostRead, hs, hg]

theorem host_read_ok (m : Client) (d : ResourceData) (resp : Host)
    (hs : m.GetService "ip-management" = none) (hg : m.GetHost d.Id = .ok resp) :
    resourceHostRead m d
      = ([], (((d.Set "name_tag" (.str resp.NameTag)).Set "address" (.str resp.Address)).Set
                "description" (.str resp.Description)).Set "id" (.str resp.ID)) := by
  simp [resourceHostRead, hs, hg]

theorem host_read_Id (m : Client) (d : ResourceData) : (resourceHostRead m d).2.Id = d.Id := by
  unfold resourceHostRead
  split
  · rfl
  · dsimp only
    split <;> rfl

theorem host_read_last_updated (m : Client) (d : ResourceData) :
    (resourceHostRead m d).2.Get "last_updated" = d.Get "last_updated" := by
  unfold resourceHostRead
  split
  · rfl
  · dsimp only
    split
    · rfl
    · rw [ResourceData.Get_Set_other _ _ _ _ (by decide),
        ResourceData.Get_Set_other _ _ _ _ (by decide),
        ResourceData.Get_Set_other _ _ _ _ (by decide),
        ResourceData.Get_Set_other _ _ _ _ (by decide)]

theorem host_create_ok (m : Client) (d : ResourceData) (resp : Host)
    (hs : m.GetService "ip-management" = none) (hc : m.CreateHost (createRequest d) = .ok resp) :
    resourceHostCreate m d
      = ([], (resourceHostRead m ((d.Set "address" (.str resp.Address)).SetId resp.ID)).2) := by
  simp [resourceHostCreate, hs, hc]

theorem host_delete_fail (m : Client) (d : ResourceData) (e : GoError)
    (hs : m.GetService "ip-management" = none) (hc : m.DeleteHost d.Id = some e) :
    resourceHostDelete m d = (diag.FromErr e, d) := by
  simp [resourceHostDelete, hs, hc]

theorem host_delete_ok (m : Client) (d : ResourceData)
    (hs : m.GetService "ip-management" = none) (hc : m.DeleteHost d.Id = none) :
    resourceHostDelete m d = ([], d.SetId "") := by
  simp [resourceHostDelete, hs, hc]

end ipam

/-! ## The claims -/

/-- C1, counterexample. Record: `CreateRecord` succeeds and returns the identifier
`rec-1`, the follow-up `resourceRecordRead` fails with a network fault, and
`resourceRecordCreate` returns the empty diagnostics, the success result, which
carry no identifier. Host: the same with `CreateHost`, `host-1` and
`resourceHostCreate`. -/
theorem C1_counterexample :
    (dns.serverReadFails.CreateRecord (dns.createRequest dns.worldApi.d) = .ok dns.recordApi
      ∧ (dns.resourceRecordRead dns.serverReadFails
          { dns.worldApi with d := dns.worldApi.d.SetId "rec-1" }).1
          = diag.FromErr (.other "network fault")
      ∧ (dns.resourceRecordCreate dns.serverReadFails dns.worldApi).1 = []
      ∧ diag.HasError (dns.resourceRecordCreate dns.serverReadFails dns.worldApi).1 = false
      ∧ diag.Mentions (dns.resourceRecordCreate dns.serverReadFails dns.worldApi).1 "rec-1"
          = false)
    ∧ (ipam.serverReadFails.CreateHost (ipam.createRequest ipam.declaredHost) = .ok ipam.hostWeb
      ∧ (ipam.resourceHostRead ipam.serverReadFails (ipam.declaredHost.SetId "host-1")).1
          = diag.FromErr (.other "network fault")
      ∧ (ipam.resourceHostCreate ipam.serverReadFails ipam.declaredHost).1 = []
      ∧ diag.HasError (ipam.resourceHostCreate ipam.serverReadFails ipam.declaredHost).1 = false
      ∧ diag.Mentions (ipam.resourceHostCreate ipam.serverReadFails ipam.declaredHost).1 "host-1"
          = false) := by
  refine ⟨⟨rfl, ?_, ?_, ?_, ?_⟩, ⟨rfl, ?_, ?_, ?_, ?_⟩⟩ <;> decide

/-- C1, amended. For both resource kinds: when the remote create call succeeds
and returns the identifier `id` and the follow-up Read fails, Create drops the
diagnostics of the Read and returns the empty diagnostics (it reports success);
the identifier `id` is kept in the resource data only. -/
theorem C1_create_drops_read_failure :
    (∀ (m : dns.Client) (w : dns.World) (resp : dns.Record) (e : GoError),
      m.GetService "domdns" = none → m.ctxDone = none →
      m.CreateRecord (dns.createRequest w.d) = .ok resp →
      m.GetRecord resp.ID (w.d.GetString "zone_name") = .error e →
      (dns.resourceRecordCreate m w).1 = [] ∧ (dns.resourceRecordCreate m w).2.d.Id = resp.ID)
    ∧ (∀ (m : ipam.Client) (d : ResourceData) (resp : ipam.Host) (e : GoError),
      m.GetService "ip-management" = none →
      m.CreateHost (ipam.createRequest d) = .ok resp →
      m.GetHost resp.ID = .error e →
      (ipam.resourceHostCreate m d).1 = [] ∧ (ipam.resourceHostCreate m d).2.Id = resp.ID) := by
  constructor
  · intro m w resp e hs hl hc _
    rw [dns.create_ok m w resp hs hl hc]
    refine ⟨rfl, ?_⟩
    rw [dns.unlockApi_d, dns.read_Id]
    rfl
  · intro m d resp e hs hc _
    rw [ipam.host_create_ok m d resp hs hc]
    refine ⟨rfl, ?_⟩
    rw [ipam.host_read_Id]
    rfl

/-- C1, amended, at the record `api` and the host `web-1` on servers whose
read call fails. -/
theorem C1_create_drops_read_failure_witness :
    ((dns.resourceRecordCreate dns.serverReadFails dns.worldApi).1 = []
      ∧ (dns.resourceRecordCreate dns.serverReadFails dns.worldApi).2.d.Id = "rec-1")
    ∧ ((ipam.resourceHostCreate ipam.serverReadFails ipam.declaredHost).1 = []
      ∧ (ipam.resourceHostCreate ipam.serverReadFails ipam.declaredHost).2.Id = "host-1") :=
  ⟨C1_create_drops_read_failure.1 dns.serverReadFails dns.worldApi dns.recordApi
      (.other "network fault") rfl rfl rfl rfl,
   C1_create_drops_read_failure.2 ipam.serverReadFails ipam.declaredHost ipam.hostWeb
      (.other "network fault") rfl rfl rfl⟩

/-- C2. In `resourceRecordCreate`, when `CreateRecord` succeeds and returns a
record with identifier `resp.ID`: the follow-up Read is attempted with that
identifier already stored (its `GetRecord` call carries it), the identifier of
the resource data is `resp.ID` when Create returns, whatever the Read does, and
when the Read fails the resource data is exactly what Create stored before the
Read: the failing Read neither clears nor changes the identifier. -/
theorem C2_identifier_stored_before_read (m : dns.Client) (w : dns.World) (resp : dns.Record)
    (hs : m.GetService "domdns" = none) (hl : m.ctxDone = none)
    (hc : m.CreateRecord (dns.createRequest w.d) = .ok resp) :
    (dns.resourceRecordCreate m w).2.d.Id = resp.ID
    ∧ dns.Event.GetRecord resp.ID (w.d.GetString "zone_name")
        ∈ (dns.resourceRecordCreate m w).2.trace
    ∧ ∀ e : GoError, m.GetRecord resp.ID (w.d.GetString "zone_name") = .error e →
        (dns.resourceRecordCreate m w).2.d
          = (((w.d.Set "last_change_date" (.str resp.LastChangeDate)).Set "zone_id"
                (.str resp.ZoneID)).Set "comments" (.str resp.Comments)).SetId resp.ID := by
  rw [dns.create_ok m w resp hs hl hc]
  refine ⟨?_, ?_, ?_⟩
  · rw [dns.unlockApi_d, dns.read_Id]
    rfl
  · rw [dns.unlockApi_trace, dns.read_trace m _ hs]
    simp only [dns.zone_name_after_create, ResourceData.Id_SetId]
    simp
  · intro e he
    rw [dns.unlockApi_d, dns.read_fail m _ e hs]
    · rfl
    · simp only [dns.zone_name_after_create, ResourceData.Id_SetId]
      exact he

/-- C2 at the record `api` on a server whose `GetRecord` fails. -/
theorem C2_identifier_stored_before_read_witness :
    (dns.resourceRecordCreate dns.serverReadFails dns.worldApi).2.d.Id = "rec-1"
    ∧ dns.Event.GetRecord "rec-1" "example.com"
        ∈ (dns.resourceRecordCreate dns.serverReadFails dns.worldApi).2.trace
    ∧ (dns.resourceRecordCreate dns.serverReadFails dns.worldApi).2.d
        = (((dns.declaredApi.Set "last_change_date" (.str "2024-01-01")).Set "zone_id"
              (.str "zone-1")).Set "comments" (.str "")).SetId "rec-1" :=
  have h := C2_identifier_stored_before_read dns.serverReadFails dns.worldApi dns.recordApi
    rfl rfl rfl
  ⟨h.1, h.2.1, h.2.2 (.other "network fault") rfl⟩

/-- C5. Record and host Delete, for every resource data and every outcome of
the calls: when the remote delete call succeeds, Delete returns the empty
diagnostics and the identifier is the empty string afterwards, the attributes
untouched; when the remote delete call fails with an error, Delete returns the
diagnostics of that error and the resource data is exactly as before. And in
every run, the resource data changes only if the remote delete call was made
and succeeded. -/
theorem C5_delete_clears_identifier_only_on_success :
    (∀ (m : dns.Client) (w : dns.World),
      m.GetService "domdns" = none → m.ctxDone = none →
        (m.DeleteRecord w.d.Id = none →
          (dns.resourceRecordDelete m w).1 = []
          ∧ (dns.resourceRecordDelete m w).2.d = w.d.SetId ""
          ∧ (dns.resourceRecordDelete m w).2.d.Id = "")
        ∧ (∀ e : GoError, m.DeleteRecord w.d.Id = some e →
          (dns.resourceRecordDelete m w).1 = diag.FromErr e
          ∧ diag.HasError (dns.resourceRecordDelete m w).1 = true
          ∧ (dns.resourceRecordDelete m w).2.d = w.d))
    ∧ (∀ (m : dns.Client) (w : dns.World),
      (dns.resourceRecordDelete m w).2.d ≠ w.d →
        m.DeleteRecord w.d.Id = none
        ∧ dns.Event.DeleteRecord w.d.Id ∈ (dns.resourceRecordDelete m w).2.trace)
    ∧ (∀ (m : ipam.Client) (d : ResourceData),
      m.GetService "ip-management" = none →
        (m.DeleteHost d.Id = none →
          (ipam.resourceHostDelete m d).1 = []
          ∧ (ipam.resourceHostDelete m d).2 = d.SetId ""
          ∧ (ipam.resourceHostDelete m d).2.Id = "")
        ∧ (∀ e : GoError, m.DeleteHost d.Id = some e →
          (ipam.resourceHostDelete m d).1 = diag.FromErr e
          ∧ diag.HasError (ipam.resourceHostDelete m d).1 = true
          ∧ (ipam.resourceHostDelete m d).2 = d))
    ∧ (∀ (m : ipam.Client) (d : ResourceData),
      (ipam.resourceHostDelete m d).2 ≠ d → m.DeleteHost d.Id = none) := by
  refine ⟨?_, ?_, ?_, ?_⟩
  · intro m w hs hl
    constructor
    · intro hd
      rw [dns.delete_ok m w hs hl hd]
      exact ⟨rfl, rfl, rfl⟩
    · intro e hd
      rw [dns.delete_mutation_fail m w e hs hl hd]
      exact ⟨rfl, rfl, rfl⟩
  · intro m w hne
    cases hs : m.GetService "domdns" with
    | some err =>
      exact absurd (by simp [dns.resourceRecordDelete, hs]) hne
    | none =>
      cases hl : m.ctxDone with
      | some err =>
        exact absurd (by rw [dns.delete_lock_fail m w err hs hl]) hne
      | none =>
        cases hd : m.DeleteRecord w.d.Id with
        | some err =>
          exact absurd (by rw [dns.delete_mutation_fail m w err hs hl hd]) hne
        | none =>
          refine ⟨rfl, ?_⟩
          rw [dns.delete_ok m w hs hl hd]
          simp
  · intro m d hs
    constructor
    · intro hd
      rw [ipam.host_delete_ok m d hs hd]
      exact ⟨rfl, rfl, rfl⟩
    · intro e hd
      rw [ipam.host_delete_fail m d e hs hd]
      exact ⟨rfl, rfl, rfl⟩
  · intro m d hne
    cases hs : m.GetService "ip-management" with
    | some err =>
      exact absurd (by simp [ipam.resourceHostDelete, hs]) hne
    | none =>
      cases hd : m.DeleteHost d.Id with
      | some err =>
        exact absurd (by rw [ipam.host_delete_fail m d err hs hd]) hne
      | none => rfl

/-- C5 at the record `rec-1`: deleted on a server that accepts the call, kept
on a server that rejects it; and the same for a host. -/
theorem C5_delete_clears_identifier_only_on_success_witness :
    ((dns.resourceRecordDelete dns.serverOk dns.worldPresent).1 = []
      ∧ (dns.resourceRecordDelete dns.serverOk dns.worldPresent).2.d
          = dns.worldPresent.d.SetId ""
      ∧ (dns.resourceRecordDelete dns.serverOk dns.worldPresent).2.d.Id = "")
    ∧ ((dns.resourceRecordDelete dns.serverMutationFails dns.worldPresent).1
          = diag.FromErr (.other "429 Too Many Requests")
      ∧ diag.HasError (dns.resourceRecordDelete dns.serverMutationFails dns.worldPresent).1 = true
      ∧ (dns.resourceRecordDelete dns.serverMutationFails dns.worldPresent).2.d
          = dns.worldPresent.d)
    ∧ ((ipam.resourceHostDelete ipam.serverOk (ipam.declaredHost.SetId "host-1")).1 = []
      ∧ (ipam.resourceHostDelete ipam.serverOk (ipam.declaredHost.SetId "host-1")).2
          = (ipam.declaredHost.SetId "host-1").SetId ""
      ∧ (ipam.resourceHostDelete ipam.serverOk (ipam.declaredHost.SetId "host-1")).2.Id = "") :=
  ⟨(C5_delete_clears_identifier_only_on_success.1 dns.serverOk dns.worldPresent rfl rfl).1 rfl,
   (C5_delete_clears_identifier_only_on_success.1 dns.serverMutationFails dns.worldPresent
      rfl rfl).2 (.other "429 Too Many Requests") rfl,
   (C5_delete_clears_identifier_only_on_success.2.2.1 ipam.serverOk
      (ipam.declaredHost.SetId "host-1") rfl).1 rfl⟩

/-- C6, counterexample. The remote delete call reports that the resource is
gone (`notFound`): `resourceRecordDelete` returns an error diagnostic and the
identifier `rec-1` stays; `resourceHostDelete` does the same with `host-1`. -/
theorem C6_counterexample :
    (dns.serverGone.DeleteRecord dns.worldPresent.d.Id = some .notFound
      ∧ (dns.resourceRecordDelete dns.serverGone dns.worldPresent).1 = diag.FromErr .notFound
      ∧ diag.HasError (dns.resourceRecordDelete dns.serverGone dns.worldPresent).1 = true
      ∧ (dns.resourceRecordDelete dns.serverGone dns.worldPresent).2.d.Id = "rec-1")
    ∧ (ipam.serverGone.DeleteHost (ipam.declaredHost.SetId "host-1").Id = some .notFound
      ∧ (ipam.resourceHostDelete ipam.serverGone (ipam.declaredHost.SetId "host-1")).1
          = diag.FromErr .notFound
      ∧ diag.HasError (ipam.resourceHostDelete ipam.serverGone
          (ipam.declaredHost.SetId "host-1")).1 = true
      ∧ (ipam.resourceHostDelete ipam.serverGone (ipam.declaredHost.SetId "host-1")).2.Id
          = "host-1") := by
  refine ⟨⟨rfl, ?_, ?_, ?_⟩, ⟨rfl, ?_, ?_, ?_⟩⟩ <;> decide

/-- C6, amended. Delete has no case for a resource that is already gone: for
both kinds, when the remote delete call returns the error `notFound`, Delete
returns the diagnostics of that error and leaves the resource data, identifier
included, as it was; and Delete returns the empty diagnostics exactly when the
remote delete call returns no error. A repeated Delete therefore reports
success only if the client's delete call itself returns no error for the
resource that is gone. -/
theorem C6_delete_reports_not_found :
    (∀ (m : dns.Client) (w : dns.World),
      m.GetService "domdns" = none → m.ctxDone = none →
        (m.DeleteRecord w.d.Id = some .notFound →
          (dns.resourceRecordDelete m w).1 = diag.FromErr .notFound
          ∧ (dns.resourceRecordDelete m w).2.d = w.d)
        ∧ ((dns.resourceRecordDelete m w).1 = [] ↔ m.DeleteRecord w.d.Id = none))
    ∧ (∀ (m : ipam.Client) (d : ResourceData),
      m.GetService "ip-management" = none →
        (m.DeleteHost d.Id = some .notFound →
          (ipam.resourceHostDelete m d).1 = diag.FromErr .notFound
          ∧ (ipam.resourceHostDelete m d).2 = d)
        ∧ ((ipam.resourceHostDelete m d).1 = [] ↔ m.DeleteHost d.Id = none)) := by
  constructor
  · intro m w hs hl
    constructor
    · intro hd
      rw [dns.delete_mutation_fail m w _ hs hl hd]
      exact ⟨rfl, rfl⟩
    · cases hd : m.DeleteRecord w.d.Id with
      | some err =>
        rw [dns.delete_mutation_fail m w err hs hl hd]
        simp [diag.FromErr]
      | none =>
        rw [dns.delete_ok m w hs hl hd]
        simp
  · intro m d hs
    constructor
    · intro hd
      rw [ipam.host_delete_fail m d _ hs hd]
      exact ⟨rfl, rfl⟩
    · cases hd : m.DeleteHost d.Id with
      | some err =>
        rw [ipam.host_delete_fail m d err hs hd]
        simp [diag.FromErr]
      | none =>
        rw [ipam.host_delete_ok m d hs hd]
        simp

/-- C6, amended, at the record `rec-1` and the host `host-1` on servers that
report them gone. -/
theorem C6_delete_reports_not_found_witness :
    ((dns.resourceRecordDelete dns.serverGone dns.worldPresent).1 = diag.FromErr .notFound
      ∧ (dns.resourceRecordDelete dns.serverGone dns.worldPresent).2.d = dns.worldPresent.d)
    ∧ ((ipam.resourceHostDelete ipam.serverGone (ipam.declaredHost.SetId "host-1")).1
          = diag.FromErr .notFound
      ∧ (ipam.resourceHostDelete ipam.serverGone (ipam.declaredHost.SetId "host-1")).2
          = ipam.declaredHost.SetId "host-1") :=
  ⟨(C6_delete_reports_not_found.1 dns.serverGone dns.worldPresent rfl rfl).1 rfl,
   (C6_delete_reports_not_found.2 ipam.serverGone (ipam.declaredHost.SetId "host-1") rfl).1 rfl⟩

/-! ### Lock bracketing -/

namespace dns

theorem newEvents_append (w after : World) (evs : List Event)
    (h : after.trace = w.trace ++ evs) : newEvents w after = evs := by
  simp [newEvents, h]

theorem bracketed_of_shape (w after : World) (mutation : Event) (mid : List Event)
    (hm : mutation.isMutation = true)
    (hmid : mid = [] ∨ ∃ id zoneName, mid = [.GetRecord id zoneName])
    (hl : after.resourceRecordApiLock = .free)
    (ht : after.trace = w.trace ++ .Lock :: mutation :: (mid ++ [.Unlock])) :
    Bracketed w after mutation := by
  refine ⟨hl, ⟨mid, hmid, ht⟩, ?_⟩
  rw [newEvents_append w after _ ht]
  rcases hmid with rfl | ⟨id, z, rfl⟩ <;> cases mutation <;>
    simp [Event.isMutation] at hm <;>
    simp [mutationsOnlyWhileHeld, Event.isMutation]

theorem create_bracketed (m : Client) (w : World)
    (hs : m.GetService "domdns" = none) (hl : m.ctxDone = none) :
    Bracketed w (resourceRecordCreate m w).2 (.CreateRecord (createRequest w.d)) := by
  cases hc : m.CreateRecord (createRequest w.d) with
  | error e =>
    rw [create_mutation_fail m w e hs hl hc]
    exact bracketed_of_shape w _ _ [] rfl (Or.inl rfl) rfl rfl
  | ok resp =>
    rw [create_ok m w resp hs hl hc]
    refine bracketed_of_shape w _ _ [.GetRecord resp.ID (w.d.GetString "zone_name")] rfl
      (Or.inr ⟨_, _, rfl⟩) rfl ?_
    rw [unlockApi_trace, read_trace m _ hs]
    simp only [zone_name_after_create, ResourceData.Id_SetId]
    simp

theorem update_bracketed (m : Client) (w : World)
    (hs : m.GetService "domdns" = none) (hl : m.ctxDone = none) :
    Bracketed w (resourceRecordUpdate m w).2 (.UpdateRecord w.d.Id (updateRequest w.d)) := by
  cases hc : m.UpdateRecord w.d.Id (updateRequest w.d) with
  | error e =>
    rw [update_mutation_fail m w e hs hl hc]
    exact bracketed_of_shape w _ _ [] rfl (Or.inl rfl) rfl rfl
  | ok resp =>
    rw [update_ok m w resp hs hl hc]
    refine bracketed_of_shape w _ _ [.GetRecord w.d.Id (w.d.GetString "zone_name")] rfl
      (Or.inr ⟨_, _, rfl⟩) rfl ?_
    rw [unlockApi_trace, read_trace m _ hs]
    simp only [ResourceData.GetString_SetId, ResourceData.Id_SetId]
    simp

theorem delete_bracketed (m : Client) (w : World)
    (hs : m.GetService "domdns" = none) (hl : m.ctxDone = none) :
    Bracketed w (resourceRecordDelete m w).2 (.DeleteRecord w.d.Id) := by
  cases hc : m.DeleteRecord w.d.Id with
  | some e =>
    rw [delete_mutation_fail m w e hs hl hc]
    exact bracketed_of_shape w _ _ [] rfl (Or.inl rfl) rfl rfl
  | none =>
    rw [delete_ok m w hs hl hc]
    exact bracketed_of_shape w _ _ [] rfl (Or.inl rfl) rfl rfl

end dns

/-- C7. Record Create, Update and Delete, once the service lookup has
succeeded, for every outcome of the lock and of the remote calls. (i) When
`resourceRecordApiLock.Lock(ctx)` fails, the callback returns the diagnostics
of that failure and the world is unchanged: no remote call and no `Unlock` is
logged, the resource data and the lock are as before. (ii) When it succeeds,
the callback brackets its mutating call: the events are `Lock`, the mutating
call, at most one `GetRecord`, `Unlock`; the mutating call happens while the
lock is held, `Unlock` happens exactly once, also when the remote call fails,
and the lock is free when the callback returns. -/
theorem C7_lock_brackets_record_mutations (m : dns.Client) (w : dns.World)
    (hs : m.GetService "domdns" = none) :
    (∀ e : GoError, m.ctxDone = some e →
      dns.resourceRecordCreate m w = (diag.FromErr e, w)
      ∧ dns.resourceRecordUpdate m w = (diag.FromErr e, w)
      ∧ dns.resourceRecordDelete m w = (diag.FromErr e, w))
    ∧ (m.ctxDone = none →
      dns.Bracketed w (dns.resourceRecordCreate m w).2 (.CreateRecord (dns.createRequest w.d))
      ∧ dns.Bracketed w (dns.resourceRecordUpdate m w).2
          (.UpdateRecord w.d.Id (dns.updateRequest w.d))
      ∧ dns.Bracketed w (dns.resourceRecordDelete m w).2 (.DeleteRecord w.d.Id)) :=
  ⟨fun e hl => ⟨dns.create_lock_fail m w e hs hl, dns.update_lock_fail m w e hs hl,
      dns.delete_lock_fail m w e hs hl⟩,
   fun hl => ⟨dns.create_bracketed m w hs hl, dns.update_bracketed m w hs hl,
      dns.delete_bracketed m w hs hl⟩⟩

/-- C7 with a cancelled context, and with a lock that is acquired on a server
that rejects every mutating call. -/
theorem C7_lock_brackets_record_mutations_witness :
    (dns.resourceRecordCreate dns.serverCancelled dns.worldPresent
        = (diag.FromErr .canceled, dns.worldPresent)
      ∧ dns.resourceRecordUpdate dns.serverCancelled dns.worldPresent
        = (diag.FromErr .canceled, dns.worldPresent)
      ∧ dns.resourceRecordDelete dns.serverCancelled dns.worldPresent
        = (diag.FromErr .canceled, dns.worldPresent))
    ∧ (dns.Bracketed dns.worldPresent
          (dns.resourceRecordCreate dns.serverMutationFails dns.worldPresent).2
          (.CreateRecord (dns.createRequest dns.worldPresent.d))
      ∧ dns.Bracketed dns.worldPresent
          (dns.resourceRecordUpdate dns.serverMutationFails dns.worldPresent).2
          (.UpdateRecord "rec-1" (dns.updateRequest dns.worldPresent.d))
      ∧ dns.Bracketed dns.worldPresent
          (dns.resourceRecordDelete dns.serverMutationFails dns.worldPresent).2
          (.DeleteRecord "rec-1")) :=
  ⟨(C7_lock_brackets_record_mutations dns.serverCancelled dns.worldPresent rfl).1 .canceled rfl,
   (C7_lock_brackets_record_mutations dns.serverMutationFails dns.worldPresent rfl).2 rfl⟩

/-- C8, counterexample. A successful `resourceRecordCreate` and a successful
`resourceRecordUpdate`: the `GetRecord` call of the follow-up Read is logged
before `Unlock`, so the Read runs while `resourceRecordApiLock` is held. -/
theorem C8_counterexample :
    ((dns.resourceRecordCreate dns.serverOk dns.worldApi).1 = []
      ∧ (dns.resourceRecordCreate dns.serverOk dns.worldApi).2.trace
          = [.Lock, .CreateRecord (dns.createRequest dns.declaredApi),
             .GetRecord "rec-1" "example.com", .Unlock]
      ∧ dns.readWhileHeld .free (dns.resourceRecordCreate dns.serverOk dns.worldApi).2.trace
          = true)
    ∧ ((dns.resourceRecordUpdate dns.serverOk dns.worldPresent).1 = []
      ∧ (dns.resourceRecordUpdate dns.serverOk dns.worldPresent).2.trace
          = [.Lock, .UpdateRecord "rec-1" (dns.updateRequest dns.worldPresent.d),
             .GetRecord "rec-1" "example.com", .Unlock]
      ∧ dns.readWhileHeld .free (dns.resourceRecordUpdate dns.serverOk dns.worldPresent).2.trace
          = true) := by
  refine ⟨⟨?_, ?_, ?_⟩, ⟨?_, ?_, ?_⟩⟩ <;> decide

/-- C8, amended. In `resourceRecordCreate` and `resourceRecordUpdate` the
`Unlock` is deferred to the return of the callback: in every successful
mutation the order of events is acquire lock, remote Create/Update call, the
`GetRecord` call of `resourceRecordRead`, release lock. The follow-up Read is
performed while the lock is held, and the lock is free when the callback
returns. -/
theorem C8_read_runs_before_unlock (m : dns.Client) (w : dns.World)
    (hs : m.GetService "domdns" = none) (hl : m.ctxDone = none) :
    (∀ resp : dns.Record, m.CreateRecord (dns.createRequest w.d) = .ok resp →
      dns.newEvents w (dns.resourceRecordCreate m w).2
        = [.Lock, .CreateRecord (dns.createRequest w.d),
           .GetRecord resp.ID (w.d.GetString "zone_name"), .Unlock]
      ∧ dns.readWhileHeld w.resourceRecordApiLock
          (dns.newEvents w (dns.resourceRecordCreate m w).2) = true
      ∧ (dns.resourceRecordCreate m w).2.resourceRecordApiLock = .free)
    ∧ (∀ resp : dns.Record, m.UpdateRecord w.d.Id (dns.updateRequest w.d) = .ok resp →
      dns.newEvents w (dns.resourceRecordUpdate m w).2
        = [.Lock, .UpdateRecord w.d.Id (dns.updateRequest w.d),
           .GetRecord w.d.Id (w.d.GetString "zone_name"), .Unlock]
      ∧ dns.readWhileHeld w.resourceRecordApiLock
          (dns.newEvents w (dns.resourceRecordUpdate m w).2) = true
      ∧ (dns.resourceRecordUpdate m w).2.resourceRecordApiLock = .free) := by
  constructor
  · intro resp hc
    have ht : dns.newEvents w (dns.resourceRecordCreate m w).2
        = [.Lock, .CreateRecord (dns.createRequest w.d),
           .GetRecord resp.ID (w.d.GetString "zone_name"), .Unlock] := by
      apply dns.newEvents_append
      rw [dns.create_ok m w resp hs hl hc, dns.unlockApi_trace, dns.read_trace m _ hs]
      simp only [dns.zone_name_after_create, ResourceData.Id_SetId]
      simp
    refine ⟨ht, ?_, ?_⟩
    · rw [ht]
      simp [dns.readWhileHeld]
    · rw [dns.create_ok m w resp hs hl hc]
      rfl
  · intro resp hc
    have ht : dns.newEvents w (dns.resourceRecordUpdate m w).2
        = [.Lock, .UpdateRecord w.d.Id (dns.updateRequest w.d),
           .GetRecord w.d.Id (w.d.GetString "zone_name"), .Unlock] := by
      apply dns.newEvents_append
      rw [dns.update_ok m w resp hs hl hc, dns.unlockApi_trace, dns.read_trace m _ hs]
      simp only [ResourceData.GetString_SetId, ResourceData.Id_SetId]
      simp
    refine ⟨ht, ?_, ?_⟩
    · rw [ht]
      simp [dns.readWhileHeld]
    · rw [dns.update_ok m w resp hs hl hc]
      rfl

/-- C8, amended, at the creation of the record `api` and at an update of the
record `rec-1`. -/
theorem C8_read_runs_before_unlock_witness :
    (dns.newEvents dns.worldApi (dns.resourceRecordCreate dns.serverOk dns.worldApi).2
        = [.Lock, .CreateRecord (dns.createRequest dns.declaredApi),
           .GetRecord "rec-1" "example.com", .Unlock]
      ∧ dns.readWhileHeld .free
          (dns.newEvents dns.worldApi (dns.resourceRecordCreate dns.serverOk dns.worldApi).2)
          = true
      ∧ (dns.resourceRecordCreate dns.serverOk dns.worldApi).2.resourceRecordApiLock = .free)
    ∧ (dns.newEvents dns.worldPresent
          (dns.resourceRecordUpdate dns.serverOk dns.worldPresent).2
        = [.Lock, .UpdateRecord "rec-1" (dns.updateRequest dns.worldPresent.d),
           .GetRecord "rec-1" "example.com", .Unlock]
      ∧ dns.readWhileHeld .free
          (dns.newEvents dns.worldPresent
            (dns.resourceRecordUpdate dns.serverOk dns.worldPresent).2) = true
      ∧ (dns.resourceRecordUpdate dns.serverOk dns.worldPresent).2.resourceRecordApiLock
          = .free) :=
  ⟨(C8_read_runs_before_unlock dns.serverOk dns.worldApi rfl rfl).1 dns.recordApi rfl,
   (C8_read_runs_before_unlock dns.serverOk dns.worldPresent rfl rfl).2 dns.recordApi rfl⟩

/-! ### The relative name of a record -/

namespace dns

theorem read_ok_name (m : Client) (w : World) (resp : Record)
    (hs : m.GetService "domdns" = none)
    (hg : m.GetRecord w.d.Id (w.d.GetString "zone_name") = .ok resp) :
    (resourceRecordRead m w).1 = []
    ∧ (resourceRecordRead m w).2.d.Get "name"
        = some (.str (strings.Replace resp.Name ("." ++ resp.ZoneName) "" 1)) := by
  unfold resourceRecordRead
  rw [hs]
  simp only [World.emit, hg, true_and]
  rw [ResourceData.Get_Set_other _ _ _ _ (by decide),
    ResourceData.Get_Set_other _ _ _ _ (by decide),
    ResourceData.Get_Set_other _ _ _ _ (by decide),
    ResourceData.Get_Set_other _ _ _ _ (by decide),
    ResourceData.Get_Set_other _ _ _ _ (by decide),
    ResourceData.Get_Set_other _ _ _ _ (by decide),
    ResourceData.Get_Set_other _ _ _ _ (by decide),
    ResourceData.Get_Set_other _ _ _ _ (by decide),
    ResourceData.Get_Set_other _ _ _ _ (by decide),
    ResourceData.Get_Set_same]

/-- A successful Read stores the relative name `r` whenever the first
occurrence of the zone suffix in the server's name `r.z` is the one at its
end. -/
theorem read_stores_relative_name (m : Client) (w : World) (resp : Record) (r z : String)
    (hs : m.GetService "domdns" = none)
    (hg : m.GetRecord w.d.Id (w.d.GetString "zone_name") = .ok resp)
    (hn : resp.Name = r ++ "." ++ z) (hz : resp.ZoneName = z)
    (hfirst : strings.Index (r ++ "." ++ z) ("." ++ z) = some r.length) :
    (resourceRecordRead m w).2.d.Get "name" = some (.str r) := by
  rw [(read_ok_name m w resp hs hg).2, hn, hz, strings.Replace_strips_suffix r z hfirst]

end dns

/-- C3, the failing input. The server holds the record with relative name
`www.example.com.cdn` in zone `example.com`, so its name is
`www.example.com.cdn.example.com`. A successful `resourceRecordRead` stores
`www.cdn.example.com` as `name`: `strings.Replace` with count 1 removes the
first occurrence of `.example.com`, which is not the zone suffix. -/
theorem C3_read_strips_first_occurrence :
    dns.recordNested.Name = "www.example.com.cdn" ++ "." ++ "example.com"
    ∧ dns.recordNested.ZoneName = "example.com"
    ∧ dns.serverNested.GetRecord dns.worldNested.d.Id (dns.worldNested.d.GetString "zone_name")
        = .ok dns.recordNested
    ∧ (dns.resourceRecordRead dns.serverNested dns.worldNested).1 = []
    ∧ (dns.resourceRecordRead dns.serverNested dns.worldNested).2.d.Get "name"
        = some (.str "www.cdn.example.com")
    ∧ (dns.resourceRecordRead dns.serverNested dns.worldNested).2.d.Get "name"
        ≠ some (.str "www.example.com.cdn") := by
  refine ⟨?_, ?_, rfl, ?_, ?_, ?_⟩ <;> decide

/-- C4, counterexample. In zone `example.com` the name
`www.example.com.example.com` is normalized to `www.example.com`, and
normalizing that again gives `www`: the normalization is not idempotent. -/
theorem C4_counterexample :
    strings.Replace "www.example.com.example.com" ("." ++ "example.com") "" 1 = "www.example.com"
    ∧ strings.Replace
        (strings.Replace "www.example.com.example.com" ("." ++ "example.com") "" 1)
        ("." ++ "example.com") "" 1 = "www"
    ∧ strings.Replace
        (strings.Replace "www.example.com.example.com" ("." ++ "example.com") "" 1)
        ("." ++ "example.com") "" 1
      ≠ strings.Replace "www.example.com.example.com" ("." ++ "example.com") "" 1 := by
  refine ⟨?_, ?_, ?_⟩ <;> decide

/-- C4, amended. The normalization `norm(n, z) = strings.Replace(n, "."+z, "", 1)`
is a no-op on every name that does not contain `"."+z`; and for every name `n`
and zone `z`, `norm(norm(n, z), z) = norm(n, z)` holds exactly when `norm(n, z)`
no longer contains `"."+z`. -/
theorem C4_normalization_fixed_without_suffix (n z : String) :
    (strings.Index n ("." ++ z) = none → strings.Replace n ("." ++ z) "" 1 = n)
    ∧ (strings.Replace (strings.Replace n ("." ++ z) "" 1) ("." ++ z) "" 1
          = strings.Replace n ("." ++ z) "" 1
        ↔ strings.Index (strings.Replace n ("." ++ z) "" 1) ("." ++ z) = none) :=
  ⟨(strings.Replace_fixed_iff n z).2,
   strings.Replace_fixed_iff (strings.Replace n ("." ++ z) "" 1) z⟩

/-- C4, amended, at the already stripped name `api` in zone `example.com`. -/
theorem C4_normalization_fixed_without_suffix_witness :
    strings.Index "api" ("." ++ "example.com") = none
    ∧ strings.Replace "api" ("." ++ "example.com") "" 1 = "api" :=
  ⟨by decide, (C4_normalization_fixed_without_suffix "api" "example.com").1 (by decide)⟩

/-! ### The computed attributes of a host -/

namespace ipam

theorem host_create_last_updated (m : Client) (d : ResourceData) :
    (resourceHostCreate m d).2.Get "last_updated" = d.Get "last_updated" := by
  unfold resourceHostCreate
  split
  · rfl
  · dsimp only
    split
    · rfl
    · rw [host_read_last_updated, ResourceData.Get_SetId,
        ResourceData.Get_Set_other _ _ _ _ (by decide)]

end ipam

/-- C9, the failing input. The host `host-1` exists remotely. The schema marks
`last_updated` as computed, yet after a successful `resourceHostRead` the
attribute `last_updated` is still not set, while `address` and `id` hold the
server's values; the same after a successful `resourceHostCreate` with its
Read. -/
theorem C9_last_updated_not_populated :
    "last_updated" ∈ ipam.computedFields
    ∧ ipam.serverOk.GetHost "host-1" = .ok ipam.hostWeb
    ∧ (ipam.resourceHostRead ipam.serverOk (ipam.declaredHost.SetId "host-1")).1 = []
    ∧ (ipam.resourceHostRead ipam.serverOk (ipam.declaredHost.SetId "host-1")).2.Get "address"
        = some (.str "10.0.0.5")
    ∧ (ipam.resourceHostRead ipam.serverOk (ipam.declaredHost.SetId "host-1")).2.Get "id"
        = some (.str "host-1")
    ∧ (ipam.resourceHostRead ipam.serverOk (ipam.declaredHost.SetId "host-1")).2.Get
        "last_updated" = none
    ∧ (ipam.resourceHostCreate ipam.serverOk ipam.declaredHost).1 = []
    ∧ (ipam.resourceHostCreate ipam.serverOk ipam.declaredHost).2.Get "last_updated" = none := by
  refine ⟨?_, rfl, ?_, ?_, ?_, ?_, ?_, ?_⟩ <;> decide
